import Mathlib

/-!
Shallow embedding of `src/main.py` (SMILES-to-PDB/MOL/PNG converter).

The program delegates all chemistry to an external toolkit (RDKit).  We model
that toolkit as an abstract record of calls; each call that can raise a Python
exception is given the type `Except String _`, with the `String` standing for
the exception message.  The filesystem is modelled as a map from paths to file
sizes (`none` = the file does not exist).  `print` calls become entries in a
log (a list of strings) and the externally visible toolkit effects are
recorded in an event trace, so that claims about call order ("ETKDG first,
then the default method, then minimization") can be stated.

Decorative parts of printed messages (emoji prefixes, leading newlines,
separator lines of dashes, prompt strings shown by `input(...)`) are dropped
from the log; every `print` whose text matters to a stated property keeps its
exact wording from `src/main.py`.
-/

namespace SmilesTo

/-- The filesystem: a path maps to the size of the file stored there,
`none` when no file exists at that path. -/
abbrev FS := String → Option Nat

/-- Models Python `str.strip()`: drop leading and trailing whitespace. -/
def pyStrip (s : String) : String :=
  ⟨((s.data.dropWhile Char.isWhitespace).reverse.dropWhile Char.isWhitespace).reverse⟩

/-- Models Python `str.lower()` (ASCII range, which covers the inputs of
this program). -/
def pyLower (s : String) : String :=
  ⟨s.data.map Char.toLower⟩

/-- Models Python `str.upper()` (ASCII range). -/
def pyUpper (s : String) : String :=
  ⟨s.data.map Char.toUpper⟩

/-- Models Python `str.endswith(post)`. -/
def pyEndsWith (s post : String) : Bool :=
  post.data.isSuffixOf s.data

/-- An opaque molecule handle owned by the external toolkit
(`rdkit.Chem.Mol`). The program never inspects its internals. -/
structure Mol where
  id : Nat
deriving DecidableEq, Repr

/-- Result of one external toolkit call: either a value or a raised
exception carrying its message. -/
abbrev TkResult (α : Type) := Except String α

/-- The external toolkit capability set consumed by `main.py`, as an abstract
record.  Writer calls (`MolToPDBFile`, `MolToMolFile`, `img.save`) return the
size in bytes of the file they produce. -/
structure Toolkit where
  /-- Models `Chem.MolFromSmiles`: `none` models Python `None` (parse failure). -/
  molFromSmiles : String → Option Mol
  /-- Models `Chem.MolToSmiles` (canonical SMILES, printed only). -/
  molToSmiles : Mol → String
  /-- Models `mol.GetNumAtoms()`. -/
  getNumAtoms : Mol → Nat
  /-- Models `Chem.AddHs`. -/
  addHs : Mol → Mol
  /-- Models `AllChem.Compute2DCoords`. -/
  compute2DCoords : Mol → TkResult Unit
  /-- Models `AllChem.EmbedMolecule(mol, AllChem.ETKDG())`; `-1` is the failure
  sentinel. -/
  embedETKDG : Mol → TkResult Int
  /-- Models `AllChem.EmbedMolecule(mol)` with the default method. -/
  embedDefault : Mol → TkResult Int
  /-- Models `AllChem.MMFFOptimizeMolecule`; `0` means converged. -/
  mmffOptimize : Mol → TkResult Int
  /-- Models `Draw.MolToImage(mol, size=(s, s))`: yields an image handle. -/
  molToImage : Mol → Int → TkResult Nat
  /-- Models `img.save(path)`: yields the size of the written image file. -/
  saveImage : Nat → TkResult Nat
  /-- Models `Chem.MolToPDBFile`: yields the size of the written PDB file. -/
  molToPDB : Mol → TkResult Nat
  /-- Models `Chem.MolToMolFile`: yields the size of the written MOL file. -/
  molToMol : Mol → TkResult Nat

/-- Which serializer produced a file. -/
inductive WriteKind where
  | pdb
  | mol
  | png
deriving DecidableEq, Repr

/-- Externally visible toolkit effects of one `convert_smiles` run,
in call order. -/
inductive Event where
  | embedETKDG
  | embedDefault
  | mmffOptimize
  | compute2D
  | writeFile (kind : WriteKind) (path : String)
deriving DecidableEq, Repr

/-- State threaded through one `convert_smiles` run. -/
structure St where
  fs : FS
  log : List String
  events : List Event

/-- A `print(...)` call inside `convert_smiles`. -/
def logPr (s : String) (st : St) : St :=
  { st with log := st.log ++ [s] }

/-- Record one toolkit effect. -/
def emitEv (e : Event) (st : St) : St :=
  { st with events := st.events ++ [e] }

/-- A completed file write of `n` bytes at `path` (overwrites). -/
def fsWrite (path : String) (n : Nat) (st : St) : St :=
  { st with fs := fun p => if p = path then some n else st.fs p }

/-- Models `os.path.exists(path) and os.path.getsize(path) > 0`. -/
def fileOk (fs : FS) (path : String) : Bool :=
  match fs path with
  | some n => decide (0 < n)
  | none => false

/-- Lines 51-55 of `main.py`: `MMFFOptimizeMolecule` and the two prints that
end the inner `try` body.  A non-zero minimization result only adds a
warning line. -/
def mmffStep (tk : Toolkit) (m : Mol) (st3 : St) : Except (String × St) St :=
  let st4 := emitEv .mmffOptimize st3
  match tk.mmffOptimize m with
  | .error e => .error (e, st4)
  | .ok minimize_result =>
    let st5 :=
      if minimize_result ≠ 0 then
        logPr "Energy minimization may not have fully converged" st4
      else st4
    .ok (logPr "3D coordinates generated successfully" st5)

/-- Lines 45-55 of `main.py`: the body of the inner `try` of 3D generation.
An `Except.error (e, st)` is a raised exception with message `e` and the
state accumulated up to the raise.  The return value of the fallback
`EmbedMolecule` call at line 49 is not inspected. -/
def embedPhase (tk : Toolkit) (m : Mol) (st0 : St) : Except (String × St) St :=
  let st1 := emitEv .embedETKDG st0
  match tk.embedETKDG m with
  | .error e => .error (e, st1)
  | .ok embed_result =>
    if embed_result = -1 then
      let st2 := emitEv .embedDefault
        (logPr "First embedding failed, trying alternative method..." st1)
      match tk.embedDefault m with
      | .error e => .error (e, st2)
      | .ok _ => mmffStep tk m st2
    else mmffStep tk m st1

/-- Lines 44-59 of `main.py`: 3D generation with its `try/except` that falls
back to a 2D layout when any embedding step raises.  The `Compute2DCoords`
call in the handler is outside the inner `try`, so it can itself raise. -/
def gen3D (tk : Toolkit) (m : Mol) (st : St) : Except (String × St) St :=
  match embedPhase tk m (logPr "Generating 3D coordinates..." st) with
  | .ok st1 => .ok st1
  | .error (e, stE) =>
    let st2 := emitEv .compute2D
      (logPr "Using 2D coordinates..."
        (logPr ("3D coordinate generation warning: " ++ e) stE))
    match tk.compute2DCoords m with
    | .error e2 => .error (e2, st2)
    | .ok _ => .ok st2

/-- Line 61 of `main.py`: plain 2D layout when `generate_3d` is false. -/
def gen2D (tk : Toolkit) (m : Mol) (st : St) : Except (String × St) St :=
  let st1 := emitEv .compute2D st
  match tk.compute2DCoords m with
  | .error e => .error (e, st1)
  | .ok _ => .ok st1

/-- Lines 63-69 of `main.py`: serialize based on format.  An unknown format
matches neither branch and writes nothing. -/
def writePhase (tk : Toolkit) (m : Mol) (output_file output_format : String)
    (st : St) : Except (String × St) St :=
  if output_format = "pdb" then
    let st1 := logPr ("Saving as PDB file: " ++ output_file) st
    match tk.molToPDB m with
    | .error e => .error (e, st1)
    | .ok n => .ok (fsWrite output_file n (emitEv (.writeFile .pdb output_file) st1))
  else if output_format = "mol" then
    let st1 := logPr ("Saving as MOL file: " ++ output_file) st
    match tk.molToMol m with
    | .error e => .error (e, st1)
    | .ok n => .ok (fsWrite output_file n (emitEv (.writeFile .mol output_file) st1))
  else .ok st

/-- Lines 30-37 of `main.py`: the PNG branch. -/
def pngBranch (tk : Toolkit) (m : Mol) (output_file : String)
    (image_size : Int) (st : St) : Except (String × St) St :=
  match gen2D tk m (logPr "Generating 2D molecular image..." st) with
  | .error e => .error e
  | .ok st1 =>
    let st2 := logPr ("Saving as PNG image: " ++ output_file) st1
    match tk.molToImage m image_size with
    | .error e => .error (e, st2)
    | .ok img =>
      match tk.saveImage img with
      | .error e => .error (e, st2)
      | .ok n => .ok (fsWrite output_file n (emitEv (.writeFile .png output_file) st2))

/-- Lines 38-69 of `main.py`: the non-PNG branch (`AddHs`, 3D or 2D layout,
then the serializer dispatch). -/
def nonPngBranch (tk : Toolkit) (m : Mol) (output_file output_format : String)
    (generate_3d : Bool) (st : St) : Except (String × St) St :=
  let mol_with_h := tk.addHs m
  let st1 := logPr ("Number of atoms after adding hydrogens: " ++
    toString (tk.getNumAtoms mol_with_h)) st
  match (if generate_3d then gen3D tk mol_with_h st1 else gen2D tk mol_with_h st1) with
  | .error e => .error e
  | .ok st2 => writePhase tk mol_with_h output_file output_format st2

/-- The format dispatch: line 30 of `main.py` tests whether the format is
png, anything else falls to the other branch. -/
def convertBranch (tk : Toolkit) (m : Mol) (output_file output_format : String)
    (generate_3d : Bool) (image_size : Int) (st : St) : Except (String × St) St :=
  if output_format = "png" then
    pngBranch tk m output_file image_size st
  else
    nonPngBranch tk m output_file output_format generate_3d st

/-- Lines 71-76 of `main.py`: the post-condition file check. -/
def postCheck (output_file : String) (st : St) : Bool × St :=
  if fileOk st.fs output_file then
    (true, logPr ("Conversion successful: " ++ output_file) st)
  else
    (false, logPr "Output file creation failed" st)

/-- State after the two prints preceding the parse (lines 17 and 20). -/
def startSt (fs0 : FS) (smiles_string output_format : String) : St :=
  logPr ("Parsing SMILES: " ++ smiles_string)
    (logPr ("Converting SMILES to " ++ pyUpper output_format ++ ": " ++ smiles_string)
      { fs := fs0, log := [], events := [] })

/-- State after a successful parse and its three informational prints
(lines 26-28). -/
def parsedSt (tk : Toolkit) (fs0 : FS) (smiles_string output_format : String)
    (m : Mol) : St :=
  logPr ("Number of atoms: " ++ toString (tk.getNumAtoms m))
    (logPr ("Molecular formula: " ++ tk.molToSmiles m)
      (logPr "Successfully parsed SMILES" (startSt fs0 smiles_string output_format)))

/-- Outcome of one `convert_smiles` call: the returned boolean, the final
filesystem, the log and the toolkit-effect trace. -/
structure ConvResult where
  ret : Bool
  fs : FS
  log : List String
  events : List Event

/-- Function `convert_smiles` of `main.py` (lines 7-80).  The function is total: the
outer `try/except` turns every raised exception into a logged message and a
`false` return, and a parse failure returns `false` before any branch runs. -/
def convert_smiles (tk : Toolkit) (fs0 : FS) (smiles_string output_file : String)
    (output_format : String) (generate_3d : Bool) (image_size : Int) : ConvResult :=
  let st0 := startSt fs0 smiles_string output_format
  match tk.molFromSmiles smiles_string with
  | none =>
    let st1 := logPr "Invalid SMILES string" st0
    { ret := false, fs := st1.fs, log := st1.log, events := st1.events }
  | some m =>
    let st1 := parsedSt tk fs0 smiles_string output_format m
    match convertBranch tk m output_file output_format generate_3d image_size st1 with
    | .error (e, stE) =>
      let stE2 := logPr ("Conversion failed: " ++ e) stE
      { ret := false, fs := stE2.fs, log := stE2.log, events := stE2.events }
    | .ok st2 =>
      let (b, st3) := postCheck output_file st2
      { ret := b, fs := st3.fs, log := st3.log, events := st3.events }

/-- True when the event wrote a file. -/
def Event.isWrite : Event → Bool
  | .writeFile _ _ => true
  | _ => false

/-! ## The interactive loop (`interactive_conversion`, lines 82-184) -/

/-- Models the Python built-in `int(s)` on an (already stripped) string: an optional
sign followed by one or more decimal digits; anything else raises
`ValueError`, modelled as `none`.  (Non-ASCII digits and underscore grouping,
which CPython also accepts, are outside the inputs this program documents and
are not modelled.) -/
def parsePyInt (s : String) : Option Int :=
  let withSign : Int × List Char :=
    match s.data with
    | '-' :: rest => (-1, rest)
    | '+' :: rest => (1, rest)
    | cs => (1, cs)
  let digits := withSign.2
  if digits = [] then none
  else if digits.all Char.isDigit then
    some (withSign.1 *
      (digits.foldl (fun a c => 10 * a + (c.toNat - '0'.toNat)) 0 : Nat))
  else none

/-- The message printed at lines 136 and 139 (its emoji prefix dropped). -/
def invalidSizeMsg : String := "Invalid size, using default 200px"

/-- Lines 129-140 of `main.py`: resolve the PNG image size from the raw
answer to the size prompt.  Returns the size together with the messages this
step prints.  Empty input defaults silently; a `ValueError` from `int(...)`
or a non-positive parsed value prints `invalidSizeMsg` and defaults. -/
def resolveImageSize (raw : String) : Int × List String :=
  let size_input := pyStrip raw
  if size_input = "" then (200, [])
  else
    match parsePyInt size_input with
    | none => (200, [invalidSizeMsg])
    | some n => if n ≤ 0 then (200, [invalidSizeMsg]) else (n, [])

/-- Lines 154-158 of `main.py`: resolve the output filename from the raw
answer to the filename prompt, given the extension of the chosen format
(`default_ext`, dot included). -/
def resolveOutputName (raw : String) (default_ext : String) : String :=
  let output_name := pyStrip raw
  if output_name = "" then "output" ++ default_ext
  else if pyEndsWith output_name default_ext then output_name
  else output_name ++ default_ext

/-- Lines 174-175 of `main.py`: the continue prompt accepts an answer whose
stripped and lowercased form is y or yes. -/
def wantsContinue (raw : String) : Bool :=
  let c := pyLower (pyStrip raw)
  c = "y" || c = "yes"

/-- One event on the interactive input stream: a line typed by the user, a
`KeyboardInterrupt` raised at an `input()` call, or any other exception
raised there (carrying its message). -/
inductive InEvent where
  | line (s : String)
  | interrupt
  | err (msg : String)
deriving Repr

/-- State threaded through the interactive loop: the pending input events,
everything printed so far, and the filesystem. -/
structure LoopSt where
  inputs : List InEvent
  log : List String
  fs : FS

/-- An exception propagating out of the body of one loop iteration, with the state
at the raise point (prints made before the raise persist). -/
inductive LoopExc where
  | interrupt (st : LoopSt)
  | exc (msg : String) (st : LoopSt)

/-- A `print(...)` call inside the loop. -/
def lpr (s : String) (st : LoopSt) : LoopSt :=
  { st with log := st.log ++ [s] }

/-- Several prints in a row. -/
def lprs (ss : List String) (st : LoopSt) : LoopSt :=
  { st with log := st.log ++ ss }

/-- An `input(...)` call: consumes the next input event.  An exhausted stream
raises `EOFError` like the CPython `input()`. -/
def readLine (st : LoopSt) : Except LoopExc (String × LoopSt) :=
  match st.inputs with
  | [] => .error (.exc "EOFError" { st with inputs := [] })
  | .line s :: rest => .ok (s, { st with inputs := rest })
  | .interrupt :: rest => .error (.interrupt { st with inputs := rest })
  | .err m :: rest => .error (.exc m { st with inputs := rest })

/-- The menu printed at the top of every iteration (lines 91-99),
decorative separators dropped. -/
def menuLines : List String :=
  ["Options:",
   "1. Convert SMILES to PDB (3D)",
   "2. Convert SMILES to PDB (2D)",
   "3. Convert SMILES to MOL (3D)",
   "4. Convert SMILES to MOL (2D)",
   "5. Convert SMILES to PNG (2D)",
   "6. Exit"]

/-- The goodbye printed on exit choice or a declined continue prompt
(lines 105 and 176, emoji dropped). -/
def goodbyeMsg : String := "Goodbye!"

/-- Line 180 (emoji and leading newlines dropped). -/
def interruptedMsg : String := "Program interrupted. Goodbye!"

/-- Line 183 (emoji and leading newline dropped). -/
def errorOccurredMsg (e : String) : String := "An error occurred: " ++ e

/-- Line 108 (emoji dropped). -/
def invalidChoiceMsg : String := "Invalid choice. Please select 1-6."

/-- Line 115 (emoji dropped). -/
def emptySmilesMsg : String := "Please enter a valid SMILES string"

/-- Lines 167-168 (emoji dropped). -/
def successBannerMsgs (output_name : String) : List String :=
  ["Operation completed successfully!", "Output file: " ++ output_name]

/-- Line 170 (emoji dropped). -/
def failBannerMsg : String := "Operation failed!"

/-- Format settings derived from a menu choice in `["1".."5"]`
(lines 119-151): output format, default extension, `generate_3d`, and — for
choice 5 only — the image size read from an extra prompt.  Returns the
settings and the state after any prompt of this step. -/
def chooseSettings (choice : String) (st : LoopSt) :
    Except LoopExc ((String × String × Bool × Int) × LoopSt) :=
  if choice = "5" then
    match readLine st with
    | .error e => .error e
    | .ok (size_raw, st1) =>
      let sizeAndMsgs := resolveImageSize size_raw
      .ok (("png", ".png", false, sizeAndMsgs.1), lprs sizeAndMsgs.2 st1)
  else if ["1", "2"].contains choice then
    .ok (("pdb", ".pdb", choice = "1", (200 : Int)), st)
  else
    .ok (("mol", ".mol", choice = "3", (200 : Int)), st)

/-- Lines 101-177 of `main.py`: the body of one loop iteration, inside the
try-block of the iteration.  `.ok (st, b)` ends the iteration normally, `b` telling
whether the loop runs again; `.error` is an exception reaching the
except clauses of the iteration. -/
def iterBody (tk : Toolkit) (st : LoopSt) : Except LoopExc (LoopSt × Bool) :=
  let st := lprs menuLines st
  match readLine st with
  | .error e => .error e
  | .ok (choice_raw, st) =>
    let choice := pyStrip choice_raw
    if choice = "6" then .ok (lpr goodbyeMsg st, false)
    else if ["1", "2", "3", "4", "5"].contains choice then
      match readLine st with
      | .error e => .error e
      | .ok (smiles_raw, st) =>
        let smiles := pyStrip smiles_raw
        if smiles = "" then .ok (lpr emptySmilesMsg st, true)
        else
          match chooseSettings choice st with
          | .error e => .error e
          | .ok (settings, st) =>
            match readLine st with
            | .error e => .error e
            | .ok (name_raw, st) =>
              let output_name := resolveOutputName name_raw settings.2.1
              let res := convert_smiles tk st.fs smiles output_name
                settings.1 settings.2.2.1 settings.2.2.2
              let banner :=
                if res.ret then successBannerMsgs output_name else [failBannerMsg]
              let st := { st with fs := res.fs, log := st.log ++ res.log ++ banner }
              match readLine st with
              | .error e => .error e
              | .ok (cont_raw, st) =>
                if wantsContinue cont_raw then .ok (st, true)
                else .ok (lpr goodbyeMsg st, false)
    else .ok (lpr invalidChoiceMsg st, true)

/-- One full iteration with its exception handlers (lines 179-184): a
`KeyboardInterrupt` prints the interrupted-goodbye and stops the loop; any
other exception prints its message and the loop continues. -/
def loopIter (tk : Toolkit) (st : LoopSt) : LoopSt × Bool :=
  match iterBody tk st with
  | .ok r => r
  | .error (.interrupt stE) => (lpr interruptedMsg stE, false)
  | .error (.exc m stE) => (lpr (errorOccurredMsg m) stE, true)

/-- The `while True` loop of `interactive_conversion`, fuelled to stay
total; each iteration either stops the loop or recurses. -/
def interactive_conversion (tk : Toolkit) : Nat → LoopSt → LoopSt
  | 0, st => st
  | Nat.succ fuel, st =>
    let r := loopIter tk st
    if r.2 then interactive_conversion tk fuel r.1 else r.1

/-! ## Helper lemmas about the phases of `convert_smiles` -/

/-- The state carried by a phase outcome, raised or not. -/
def outSt : Except (String × St) St → St
  | .ok st => st
  | .error es => es.2

@[simp] theorem logPr_fs (s : String) (st : St) : (logPr s st).fs = st.fs := rfl

@[simp] theorem logPr_log (s : String) (st : St) : (logPr s st).log = st.log ++ [s] := rfl

@[simp] theorem logPr_events (s : String) (st : St) : (logPr s st).events = st.events := rfl

@[simp] theorem emitEv_fs (e : Event) (st : St) : (emitEv e st).fs = st.fs := rfl

@[simp] theorem emitEv_log (e : Event) (st : St) : (emitEv e st).log = st.log := rfl

@[simp] theorem emitEv_events (e : Event) (st : St) :
    (emitEv e st).events = st.events ++ [e] := rfl

@[simp] theorem fsWrite_log (p : String) (n : Nat) (st : St) :
    (fsWrite p n st).log = st.log := rfl

@[simp] theorem fsWrite_events (p : String) (n : Nat) (st : St) :
    (fsWrite p n st).events = st.events := rfl

@[simp] theorem outSt_ok (st : St) : outSt (.ok st) = st := rfl

@[simp] theorem outSt_error (es : String × St) : outSt (.error es) = es.2 := rfl

@[simp] theorem parsedSt_events (tk : Toolkit) (fs0 : FS) (s fmt : String) (m : Mol) :
    (parsedSt tk fs0 s fmt m).events = [] := rfl

@[simp] theorem parsedSt_fs (tk : Toolkit) (fs0 : FS) (s fmt : String) (m : Mol) :
    (parsedSt tk fs0 s fmt m).fs = fs0 := rfl

theorem mmffStep_raise (tk : Toolkit) (m : Mol) (st : St) (e : String)
    (hM : tk.mmffOptimize m = .error e) :
    mmffStep tk m st = .error (e, emitEv .mmffOptimize st) := by
  simp [mmffStep, hM]

theorem mmffStep_nonconv (tk : Toolkit) (m : Mol) (st : St) (mv : Int)
    (hM : tk.mmffOptimize m = .ok mv) (hmv : mv ≠ 0) :
    mmffStep tk m st = .ok (logPr "3D coordinates generated successfully"
      (logPr "Energy minimization may not have fully converged"
        (emitEv .mmffOptimize st))) := by
  simp [mmffStep, hM, hmv]

theorem mmffStep_conv (tk : Toolkit) (m : Mol) (st : St)
    (hM : tk.mmffOptimize m = .ok 0) :
    mmffStep tk m st = .ok (logPr "3D coordinates generated successfully"
      (emitEv .mmffOptimize st)) := by
  simp [mmffStep, hM]

theorem mmffStep_events (tk : Toolkit) (m : Mol) (st : St) :
    (outSt (mmffStep tk m st)).events = st.events ++ [.mmffOptimize] := by
  rcases hM : tk.mmffOptimize m with e | mv
  · simp [mmffStep, hM]
  · by_cases hmv : mv = 0 <;> simp [mmffStep, hM, hmv]

theorem embedPhase_raise (tk : Toolkit) (m : Mol) (st : St) (e : String)
    (hE : tk.embedETKDG m = .error e) :
    embedPhase tk m st = .error (e, emitEv .embedETKDG st) := by
  simp [embedPhase, hE]

theorem embedPhase_direct (tk : Toolkit) (m : Mol) (st : St) (r : Int)
    (hE : tk.embedETKDG m = .ok r) (hr : r ≠ -1) :
    embedPhase tk m st = mmffStep tk m (emitEv .embedETKDG st) := by
  simp [embedPhase, hE, hr]

theorem embedPhase_fallback (tk : Toolkit) (m : Mol) (st : St) (v : Int)
    (hE : tk.embedETKDG m = .ok (-1)) (hD : tk.embedDefault m = .ok v) :
    embedPhase tk m st = mmffStep tk m (emitEv .embedDefault
      (logPr "First embedding failed, trying alternative method..."
        (emitEv .embedETKDG st))) := by
  simp [embedPhase, hE, hD]

theorem embedPhase_fallback_raise (tk : Toolkit) (m : Mol) (st : St) (e : String)
    (hE : tk.embedETKDG m = .ok (-1)) (hD : tk.embedDefault m = .error e) :
    embedPhase tk m st = .error (e, emitEv .embedDefault
      (logPr "First embedding failed, trying alternative method..."
        (emitEv .embedETKDG st))) := by
  simp [embedPhase, hE, hD]

theorem embedPhase_events (tk : Toolkit) (m : Mol) (st : St) :
    ∃ t, (outSt (embedPhase tk m st)).events = st.events ++ Event.embedETKDG :: t := by
  rcases hE : tk.embedETKDG m with e | r
  · exact ⟨[], by simp [embedPhase_raise tk m st e hE]⟩
  · by_cases hr : r = -1
    · subst hr
      rcases hD : tk.embedDefault m with e | v
      · exact ⟨[.embedDefault], by simp [embedPhase_fallback_raise tk m st e hE hD]⟩
      · refine ⟨[.embedDefault, .mmffOptimize], ?_⟩
        rw [embedPhase_fallback tk m st v hE hD, mmffStep_events]
        simp
    · refine ⟨[.mmffOptimize], ?_⟩
      rw [embedPhase_direct tk m st r hE hr, mmffStep_events]
      simp

theorem gen3D_of_ok (tk : Toolkit) (m : Mol) (st st2 : St)
    (h : embedPhase tk m (logPr "Generating 3D coordinates..." st) = .ok st2) :
    gen3D tk m st = .ok st2 := by
  simp [gen3D, h]

theorem gen3D_handler (tk : Toolkit) (m : Mol) (st stE : St) (e : String)
    (h : embedPhase tk m (logPr "Generating 3D coordinates..." st) = .error (e, stE)) :
    (outSt (gen3D tk m st)).log
        = stE.log ++ ["3D coordinate generation warning: " ++ e,
                      "Using 2D coordinates..."] ∧
    (outSt (gen3D tk m st)).events = stE.events ++ [.compute2D] := by
  rcases h2 : tk.compute2DCoords m with e2 | u <;> simp [gen3D, h, h2]

theorem gen3D_events (tk : Toolkit) (m : Mol) (st : St) :
    ∃ t, (outSt (gen3D tk m st)).events = st.events ++ Event.embedETKDG :: t := by
  rcases hEP : embedPhase tk m (logPr "Generating 3D coordinates..." st) with ⟨e, stE⟩ | st2
  · obtain ⟨t, ht⟩ := embedPhase_events tk m (logPr "Generating 3D coordinates..." st)
    rw [hEP] at ht
    obtain ⟨-, hev⟩ := gen3D_handler tk m st stE e hEP
    refine ⟨t ++ [.compute2D], ?_⟩
    rw [hev]
    simp only [outSt_error] at ht
    rw [ht]
    simp
  · obtain ⟨t, ht⟩ := embedPhase_events tk m (logPr "Generating 3D coordinates..." st)
    rw [hEP] at ht
    exact ⟨t, by rw [gen3D_of_ok tk m st st2 hEP]; simpa using ht⟩

theorem gen3D_events_fallback (tk : Toolkit) (m : Mol) (st : St)
    (hE : tk.embedETKDG m = .ok (-1)) :
    ∃ t, (outSt (gen3D tk m st)).events
      = st.events ++ Event.embedETKDG :: Event.embedDefault :: t := by
  have hEP : ∃ t, (outSt (embedPhase tk m (logPr "Generating 3D coordinates..." st))).events
      = st.events ++ Event.embedETKDG :: Event.embedDefault :: t := by
    rcases hD : tk.embedDefault m with e | w
    · exact ⟨[], by simp [embedPhase_fallback_raise tk m _ e hE hD]⟩
    · refine ⟨[.mmffOptimize], ?_⟩
      rw [embedPhase_fallback tk m _ w hE hD, mmffStep_events]
      simp
  obtain ⟨t, ht⟩ := hEP
  rcases hG : embedPhase tk m (logPr "Generating 3D coordinates..." st) with ⟨e, stE⟩ | st2
  · rw [hG] at ht
    obtain ⟨-, hev⟩ := gen3D_handler tk m st stE e hG
    refine ⟨t ++ [.compute2D], ?_⟩
    rw [hev]
    simp only [outSt_error] at ht
    rw [ht]
    simp
  · rw [hG] at ht
    exact ⟨t, by rw [gen3D_of_ok tk m st st2 hG]; simpa using ht⟩

theorem gen3D_events_fallback_ok (tk : Toolkit) (m : Mol) (st : St) (w : Int)
    (hE : tk.embedETKDG m = .ok (-1)) (hD : tk.embedDefault m = .ok w) :
    ∃ t, (outSt (gen3D tk m st)).events
      = st.events ++ Event.embedETKDG :: Event.embedDefault ::
          Event.mmffOptimize :: t := by
  have hEP : (outSt (embedPhase tk m (logPr "Generating 3D coordinates..." st))).events
      = st.events ++ [Event.embedETKDG, Event.embedDefault, Event.mmffOptimize] := by
    rw [embedPhase_fallback tk m _ w hE hD, mmffStep_events]
    simp
  rcases hG : embedPhase tk m (logPr "Generating 3D coordinates..." st) with ⟨e, stE⟩ | st2
  · rw [hG] at hEP
    obtain ⟨-, hev⟩ := gen3D_handler tk m st stE e hG
    refine ⟨[.compute2D], ?_⟩
    rw [hev]
    simp only [outSt_error] at hEP
    rw [hEP]
    simp
  · rw [hG] at hEP
    exact ⟨[], by rw [gen3D_of_ok tk m st st2 hG]; simpa using hEP⟩

theorem gen3D_events_direct (tk : Toolkit) (m : Mol) (st : St) (rv : Int)
    (hE : tk.embedETKDG m = .ok rv) (hrv : rv ≠ -1) :
    ∃ t, (outSt (gen3D tk m st)).events
      = st.events ++ Event.embedETKDG :: Event.mmffOptimize :: t := by
  have hEP : ∃ t, (outSt (embedPhase tk m (logPr "Generating 3D coordinates..." st))).events
      = st.events ++ Event.embedETKDG :: Event.mmffOptimize :: t := by
    refine ⟨[], ?_⟩
    rw [embedPhase_direct tk m _ rv hE hrv, mmffStep_events]
    simp
  obtain ⟨t, ht⟩ := hEP
  rcases hG : embedPhase tk m (logPr "Generating 3D coordinates..." st) with ⟨e, stE⟩ | st2
  · rw [hG] at ht
    obtain ⟨-, hev⟩ := gen3D_handler tk m st stE e hG
    refine ⟨t ++ [.compute2D], ?_⟩
    rw [hev]
    simp only [outSt_error] at ht
    rw [ht]
    simp
  · rw [hG] at ht
    exact ⟨t, by rw [gen3D_of_ok tk m st st2 hG]; simpa using ht⟩

theorem writePhase_accum (tk : Toolkit) (m : Mol) (f fmt : String) (st : St) :
    ∃ t u, (outSt (writePhase tk m f fmt st)).events = st.events ++ t ∧
      (outSt (writePhase tk m f fmt st)).log = st.log ++ u := by
  by_cases h1 : fmt = "pdb"
  · rcases hw : tk.molToPDB m with e | n
    · exact ⟨[], ["Saving as PDB file: " ++ f], by simp [writePhase, h1, hw]⟩
    · exact ⟨[.writeFile .pdb f], ["Saving as PDB file: " ++ f],
        by simp [writePhase, h1, hw, fsWrite]⟩
  · by_cases h2 : fmt = "mol"
    · rcases hw : tk.molToMol m with e | n
      · exact ⟨[], ["Saving as MOL file: " ++ f], by simp [writePhase, h1, h2, hw]⟩
      · exact ⟨[.writeFile .mol f], ["Saving as MOL file: " ++ f],
          by simp [writePhase, h1, h2, hw, fsWrite]⟩
    · exact ⟨[], [], by simp [writePhase, h1, h2]⟩

theorem nonPng_out3d (tk : Toolkit) (m : Mol) (f fmt : String) (st : St) :
    ∃ t u, (outSt (nonPngBranch tk m f fmt true st)).events
        = (outSt (gen3D tk (tk.addHs m)
            (logPr ("Number of atoms after adding hydrogens: " ++
              toString (tk.getNumAtoms (tk.addHs m))) st))).events ++ t ∧
      (outSt (nonPngBranch tk m f fmt true st)).log
        = (outSt (gen3D tk (tk.addHs m)
            (logPr ("Number of atoms after adding hydrogens: " ++
              toString (tk.getNumAtoms (tk.addHs m))) st))).log ++ u := by
  rcases hG : gen3D tk (tk.addHs m)
      (logPr ("Number of atoms after adding hydrogens: " ++
        toString (tk.getNumAtoms (tk.addHs m))) st) with ⟨e, stE⟩ | st2
  · exact ⟨[], [], by simp [nonPngBranch, hG]⟩
  · obtain ⟨t, u, ht, hu⟩ := writePhase_accum tk (tk.addHs m) f fmt st2
    exact ⟨t, u, by simp [nonPngBranch, hG, ht, hu]⟩

theorem convert_out (tk : Toolkit) (fs0 : FS) (s f fmt : String) (g3 : Bool)
    (sz : Int) (m : Mol) (hp : tk.molFromSmiles s = some m) :
    (convert_smiles tk fs0 s f fmt g3 sz).events
      = (outSt (convertBranch tk m f fmt g3 sz (parsedSt tk fs0 s fmt m))).events ∧
    ∃ u, (convert_smiles tk fs0 s f fmt g3 sz).log
      = (outSt (convertBranch tk m f fmt g3 sz (parsedSt tk fs0 s fmt m))).log ++ u := by
  rcases hB : convertBranch tk m f fmt g3 sz (parsedSt tk fs0 s fmt m) with ⟨e, stE⟩ | st2
  · refine ⟨by simp [convert_smiles, hp, hB], ⟨["Conversion failed: " ++ e], ?_⟩⟩
    simp [convert_smiles, hp, hB]
  · constructor
    · by_cases hc : fileOk st2.fs f <;> simp [convert_smiles, hp, hB, postCheck, hc]
    · by_cases hc : fileOk st2.fs f
      · exact ⟨["Conversion successful: " ++ f],
          by simp [convert_smiles, hp, hB, postCheck, hc]⟩
      · exact ⟨["Output file creation failed"],
          by simp [convert_smiles, hp, hB, postCheck, hc]⟩

/-! ## Helper lemmas about the interactive loop -/

@[simp] theorem lpr_inputs (s : String) (st : LoopSt) : (lpr s st).inputs = st.inputs := rfl

@[simp] theorem lpr_log (s : String) (st : LoopSt) : (lpr s st).log = st.log ++ [s] := rfl

@[simp] theorem lpr_fs (s : String) (st : LoopSt) : (lpr s st).fs = st.fs := rfl

@[simp] theorem lprs_inputs (ss : List String) (st : LoopSt) :
    (lprs ss st).inputs = st.inputs := rfl

@[simp] theorem lprs_log (ss : List String) (st : LoopSt) :
    (lprs ss st).log = st.log ++ ss := rfl

@[simp] theorem lprs_fs (ss : List String) (st : LoopSt) : (lprs ss st).fs = st.fs := rfl

/-! ## Concrete instances used to witness the theorems -/

/-- An empty filesystem. -/
def fsEmpty : FS := fun _ => none

/-- A filesystem holding a stale five-byte file at `out.pdb`. -/
def fsPre : FS := fun p => if p = "out.pdb" then some 5 else none

/-- A toolkit on which every call succeeds. -/
def tkOk : Toolkit where
  molFromSmiles := fun s => if s = "XXX" then none else some ⟨1⟩
  molToSmiles := fun _ => "CCO"
  getNumAtoms := fun m => m.id + 2
  addHs := fun m => ⟨m.id + 7⟩
  compute2DCoords := fun _ => .ok ()
  embedETKDG := fun _ => .ok 0
  embedDefault := fun _ => .ok 0
  mmffOptimize := fun _ => .ok 0
  molToImage := fun _ _ => .ok 0
  saveImage := fun _ => .ok 10
  molToPDB := fun _ => .ok 11
  molToMol := fun _ => .ok 12

/-- A toolkit that rejects every SMILES string. -/
def tkNone : Toolkit := { tkOk with molFromSmiles := fun _ => none }

/-- A toolkit on which both embedding methods return the `-1` sentinel. -/
def tkFallback : Toolkit :=
  { tkOk with embedETKDG := fun _ => .ok (-1), embedDefault := fun _ => .ok (-1) }

/-- A toolkit whose minimization does not converge. -/
def tkNonConv : Toolkit := { tkOk with mmffOptimize := fun _ => .ok 1 }

/-- A toolkit whose ETKDG embedding raises. -/
def tkRaise : Toolkit := { tkOk with embedETKDG := fun _ => .error "boom" }

/-! ## Claim theorems -/

/-- C2: for every SMILES string the toolkit fails to parse, `convert_smiles`
logs "Invalid SMILES string" and returns `false`.  `convert_smiles` is a
total Lean function here, so the equation itself shows that no exception
escapes: every raise inside the body is converted to a logged message and a
boolean. -/
theorem convert_invalid_smiles (tk : Toolkit) (fs0 : FS) (s f fmt : String)
    (g3 : Bool) (sz : Int) (h : tk.molFromSmiles s = none) :
    (convert_smiles tk fs0 s f fmt g3 sz).ret = false ∧
    "Invalid SMILES string" ∈ (convert_smiles tk fs0 s f fmt g3 sz).log := by
  simp [convert_smiles, h, startSt]

theorem convert_invalid_smiles_witness :
    tkNone.molFromSmiles "CCO" = none ∧
    ((convert_smiles tkNone fsEmpty "CCO" "out.pdb" "pdb" true 200).ret = false ∧
     "Invalid SMILES string" ∈
       (convert_smiles tkNone fsEmpty "CCO" "out.pdb" "pdb" true 200).log) :=
  ⟨rfl, convert_invalid_smiles tkNone fsEmpty "CCO" "out.pdb" "pdb" true 200 rfl⟩

/-- C6: output-filename defaulting in the interactive loop: an empty
(stripped) input yields `output.<ext>`; a non-empty name lacking the
expected extension has it appended; a name already ending with the
extension passes through unchanged. -/
theorem output_name_defaulting (raw ext : String) :
    (pyStrip raw = "" → resolveOutputName raw ext = "output" ++ ext) ∧
    (pyStrip raw ≠ "" → pyEndsWith (pyStrip raw) ext = false →
      resolveOutputName raw ext = pyStrip raw ++ ext) ∧
    (pyStrip raw ≠ "" → pyEndsWith (pyStrip raw) ext = true →
      resolveOutputName raw ext = pyStrip raw) :=
  ⟨fun h => by simp [resolveOutputName, h],
   fun h1 h2 => by simp [resolveOutputName, h1, h2],
   fun h1 h2 => by simp [resolveOutputName, h1, h2]⟩

theorem output_name_defaulting_witness :
    resolveOutputName "  " ".pdb" = "output.pdb" ∧
    resolveOutputName " x " ".pdb" = "x.pdb" ∧
    resolveOutputName "x.pdb" ".pdb" = "x.pdb" :=
  ⟨(output_name_defaulting "  " ".pdb").1 (by decide),
   (output_name_defaulting " x " ".pdb").2.1 (by decide) (by decide),
   (output_name_defaulting "x.pdb" ".pdb").2.2 (by decide) (by decide)⟩

/-- C5 counterexample: defaulting on a non-numeric size input is not silent:
the loop prints the invalid-size message while falling back to 200 (lines
138-140 of `main.py`), and the same message is printed for a non-positive
input (lines 135-137).  Only the empty input defaults silently. -/
theorem image_size_not_silent :
    resolveImageSize "abc" = (200, [invalidSizeMsg]) ∧
    resolveImageSize "-3" = (200, [invalidSizeMsg]) ∧
    invalidSizeMsg ≠ "" := by
  refine ⟨by decide, by decide, by decide⟩

/-- C5 (amended): a size input that is empty, non-numeric, or non-positive
results in an `image_size` of 200; the empty input defaults silently, while
a non-numeric or non-positive input prints the invalid-size message. -/
theorem image_size_defaulting (raw : String) :
    (pyStrip raw = "" → resolveImageSize raw = (200, [])) ∧
    (pyStrip raw ≠ "" → parsePyInt (pyStrip raw) = none →
      resolveImageSize raw = (200, [invalidSizeMsg])) ∧
    (∀ n : Int, parsePyInt (pyStrip raw) = some n → n ≤ 0 →
      resolveImageSize raw = (200, [invalidSizeMsg])) ∧
    (∀ n : Int, parsePyInt (pyStrip raw) = some n → 0 < n →
      resolveImageSize raw = (n, [])) := by
  refine ⟨fun h => by simp [resolveImageSize, h],
    fun h1 h2 => by simp [resolveImageSize, h1, h2],
    fun n hn hle => ?_, fun n hn hpos => ?_⟩
  · by_cases h : pyStrip raw = ""
    · rw [h] at hn
      exact absurd hn (by simp [parsePyInt])
    · simp [resolveImageSize, h, hn, hle]
  · by_cases h : pyStrip raw = ""
    · rw [h] at hn
      exact absurd hn (by simp [parsePyInt])
    · simp [resolveImageSize, h, hn, (by omega : ¬ n ≤ 0), hpos]

/-- C1 counterexample: on a parse failure with a stale non-empty file
already at the output path, `convert_smiles` returns `false` even though, at
the end of the attempt, the output file exists with non-zero size — so the
return value is not equivalent to the existence-and-size check on every
attempt. -/
theorem convert_false_despite_nonempty_file :
    (convert_smiles tkNone fsPre "CCO" "out.pdb" "pdb" true 200).ret = false ∧
    fileOk (convert_smiles tkNone fsPre "CCO" "out.pdb" "pdb" true 200).fs
      "out.pdb" = true :=
  ⟨rfl, by decide⟩

/-- C1 (amended): the existence-and-size check is the sole success criterion
whenever the conversion attempt runs to the final check, i.e. when parsing
succeeded and no step raised: then the returned boolean equals `fileOk` of
the final filesystem at the output path, whatever the conversion steps did.
When parsing fails or a step raises, `false` is returned regardless of the
state of the file. -/
theorem convert_ret_iff_file (tk : Toolkit) (fs0 : FS) (s f fmt : String)
    (g3 : Bool) (sz : Int) :
    (tk.molFromSmiles s = none → (convert_smiles tk fs0 s f fmt g3 sz).ret = false) ∧
    (∀ m, tk.molFromSmiles s = some m →
      (∀ st2, convertBranch tk m f fmt g3 sz (parsedSt tk fs0 s fmt m) = .ok st2 →
        ((convert_smiles tk fs0 s f fmt g3 sz).ret = fileOk st2.fs f ∧
         (convert_smiles tk fs0 s f fmt g3 sz).fs = st2.fs)) ∧
      (∀ e stE,
        convertBranch tk m f fmt g3 sz (parsedSt tk fs0 s fmt m) = .error (e, stE) →
        ((convert_smiles tk fs0 s f fmt g3 sz).ret = false ∧
         (convert_smiles tk fs0 s f fmt g3 sz).fs = stE.fs))) := by
  refine ⟨fun h => by simp [convert_smiles, h],
    fun m hm => ⟨fun st2 hb => ?_, fun e stE hb => ?_⟩⟩
  · by_cases hc : fileOk st2.fs f <;> simp [convert_smiles, hm, hb, postCheck, hc]
  · simp [convert_smiles, hm, hb]

/-- The branch state of the witnessing run for the amended C1. -/
def stW : St :=
  match convertBranch tkOk ⟨1⟩ "out.pdb" "pdb" true 200
      (parsedSt tkOk fsEmpty "CCO" "pdb" ⟨1⟩) with
  | .ok st => st
  | .error es => es.2

theorem convert_ret_iff_file_witness :
    tkOk.molFromSmiles "CCO" = some ⟨1⟩ ∧
    convertBranch tkOk ⟨1⟩ "out.pdb" "pdb" true 200
      (parsedSt tkOk fsEmpty "CCO" "pdb" ⟨1⟩) = .ok stW ∧
    ((convert_smiles tkOk fsEmpty "CCO" "out.pdb" "pdb" true 200).ret
        = fileOk stW.fs "out.pdb" ∧
     (convert_smiles tkOk fsEmpty "CCO" "out.pdb" "pdb" true 200).fs = stW.fs) :=
  ⟨rfl, rfl,
   ((convert_ret_iff_file tkOk fsEmpty "CCO" "out.pdb" "pdb" true 200).2 ⟨1⟩
     rfl).1 stW rfl⟩

/-- C9: calling `convert_smiles` with a format outside pdb/mol/png on a
SMILES the toolkit parses (and toolkit steps that return normally) invokes
no serializer, writes nothing, and still returns `true` exactly when a
non-empty file already sits at the output path — a stale file yields a
reported success with no conversion output. -/
theorem unknown_format_stale_success (tk : Toolkit) (fs0 : FS) (s f fmt : String)
    (g3 : Bool) (sz : Int) (m : Mol)
    (hp : tk.molFromSmiles s = some m)
    (hf1 : fmt ≠ "png") (hf2 : fmt ≠ "pdb") (hf3 : fmt ≠ "mol")
    (h2d : tk.compute2DCoords (tk.addHs m) = .ok ())
    (hE : tk.embedETKDG (tk.addHs m) = .ok 0)
    (hM : tk.mmffOptimize (tk.addHs m) = .ok 0) :
    ((convert_smiles tk fs0 s f fmt g3 sz).events.all fun e => !e.isWrite) = true ∧
    (convert_smiles tk fs0 s f fmt g3 sz).fs = fs0 ∧
    (convert_smiles tk fs0 s f fmt g3 sz).ret = fileOk fs0 f := by
  cases g3 <;> by_cases hc : fileOk fs0 f <;>
    simp [convert_smiles, hp, convertBranch, hf1, hf2, hf3, nonPngBranch,
      gen3D, gen2D, embedPhase, mmffStep, h2d, hE, hM, writePhase, postCheck,
      hc, Event.isWrite]

theorem unknown_format_stale_success_witness :
    tkOk.molFromSmiles "CCO" = some ⟨1⟩ ∧
    (((convert_smiles tkOk fsPre "CCO" "out.pdb" "xyz" true 200).events.all
        fun e => !e.isWrite) = true ∧
     (convert_smiles tkOk fsPre "CCO" "out.pdb" "xyz" true 200).fs = fsPre ∧
     (convert_smiles tkOk fsPre "CCO" "out.pdb" "xyz" true 200).ret
        = fileOk fsPre "out.pdb") :=
  ⟨rfl, unknown_format_stale_success tkOk fsPre "CCO" "out.pdb" "xyz" true 200
    ⟨1⟩ rfl (by decide) (by decide) (by decide) rfl rfl rfl⟩

/-- C10: when ETKDG returns the `-1` sentinel and the fallback default
embedding also returns `-1`, the run proceeds directly to energy
minimization (the first three toolkit events are the two embeddings then
MMFF), and the entire outcome is identical to a run whose fallback returns
any other value: the fallback return value is discarded and the second
failure goes undetected. -/
theorem fallback_result_discarded (tk : Toolkit) (fs0 : FS) (s f fmt : String)
    (sz : Int) (m : Mol) (v : Int)
    (hp : tk.molFromSmiles s = some m)
    (hfmt : fmt ≠ "png")
    (hE : tk.embedETKDG (tk.addHs m) = .ok (-1))
    (hD : tk.embedDefault (tk.addHs m) = .ok (-1)) :
    (convert_smiles tk fs0 s f fmt true sz).events.take 3
        = [Event.embedETKDG, Event.embedDefault, Event.mmffOptimize] ∧
    convert_smiles tk fs0 s f fmt true sz
        = convert_smiles { tk with embedDefault := fun _ => .ok v } fs0 s f fmt true sz := by
  constructor
  · obtain ⟨hev, -⟩ := convert_out tk fs0 s f fmt true sz m hp
    rw [hev]
    rw [show convertBranch tk m f fmt true sz (parsedSt tk fs0 s fmt m)
        = nonPngBranch tk m f fmt true (parsedSt tk fs0 s fmt m)
      from by simp [convertBranch, hfmt]]
    obtain ⟨t, u, hev2, -⟩ := nonPng_out3d tk m f fmt (parsedSt tk fs0 s fmt m)
    rw [hev2]
    obtain ⟨t2, hg⟩ := gen3D_events_fallback_ok tk (tk.addHs m) _ (-1) hE hD
    rw [hg]
    simp
  · simp [convert_smiles, convertBranch, hfmt, nonPngBranch, gen3D, embedPhase,
      mmffStep, hp, hE, hD, postCheck, parsedSt, startSt, writePhase]

theorem fallback_result_discarded_witness :
    tkFallback.molFromSmiles "CCO" = some ⟨1⟩ ∧
    ((convert_smiles tkFallback fsEmpty "CCO" "out.pdb" "pdb" true 200).events.take 3
        = [Event.embedETKDG, Event.embedDefault, Event.mmffOptimize] ∧
     convert_smiles tkFallback fsEmpty "CCO" "out.pdb" "pdb" true 200
        = convert_smiles { tkFallback with embedDefault := fun _ => .ok 7 }
            fsEmpty "CCO" "out.pdb" "pdb" true 200) :=
  ⟨rfl, fallback_result_discarded tkFallback fsEmpty "CCO" "out.pdb" "pdb" 200
    ⟨1⟩ 7 rfl (by decide) rfl rfl⟩

/-- C3: with `generate_3d` true and a pdb/mol format, the run attempts the
ETKDG embedding first; on the `-1` sentinel it retries with the default
method; it then attempts MMFF minimization, whose non-convergence only adds
a warning while the 3D path completes; and if the ETKDG call, the fallback
call or the minimization raises, the exception is caught, a warning and the
2D-fallback message are logged and a 2D layout is computed instead. -/
theorem threeD_generation_behavior (tk : Toolkit) (fs0 : FS) (s f fmt : String)
    (sz : Int) (m : Mol)
    (hp : tk.molFromSmiles s = some m)
    (hfmt : fmt = "pdb" ∨ fmt = "mol") :
    (convert_smiles tk fs0 s f fmt true sz).events.head? = some Event.embedETKDG ∧
    (tk.embedETKDG (tk.addHs m) = .ok (-1) →
      (convert_smiles tk fs0 s f fmt true sz).events.take 2
        = [Event.embedETKDG, Event.embedDefault]) ∧
    (∀ rv : Int, tk.embedETKDG (tk.addHs m) = .ok rv → rv ≠ -1 →
      (convert_smiles tk fs0 s f fmt true sz).events.take 2
        = [Event.embedETKDG, Event.mmffOptimize]) ∧
    (∀ rv mv : Int, tk.embedETKDG (tk.addHs m) = .ok rv → rv ≠ -1 →
      tk.mmffOptimize (tk.addHs m) = .ok mv → mv ≠ 0 →
      ("Energy minimization may not have fully converged"
          ∈ (convert_smiles tk fs0 s f fmt true sz).log ∧
       "3D coordinates generated successfully"
          ∈ (convert_smiles tk fs0 s f fmt true sz).log)) ∧
    (∀ e, tk.embedETKDG (tk.addHs m) = .error e →
      (("3D coordinate generation warning: " ++ e)
          ∈ (convert_smiles tk fs0 s f fmt true sz).log ∧
       "Using 2D coordinates..." ∈ (convert_smiles tk fs0 s f fmt true sz).log ∧
       Event.compute2D ∈ (convert_smiles tk fs0 s f fmt true sz).events)) ∧
    (∀ rv : Int, ∀ e, tk.embedETKDG (tk.addHs m) = .ok rv → rv ≠ -1 →
      tk.mmffOptimize (tk.addHs m) = .error e →
      (("3D coordinate generation warning: " ++ e)
          ∈ (convert_smiles tk fs0 s f fmt true sz).log ∧
       "Using 2D coordinates..." ∈ (convert_smiles tk fs0 s f fmt true sz).log ∧
       Event.compute2D ∈ (convert_smiles tk fs0 s f fmt true sz).events)) ∧
    (∀ e, tk.embedETKDG (tk.addHs m) = .ok (-1) →
      tk.embedDefault (tk.addHs m) = .error e →
      (("3D coordinate generation warning: " ++ e)
          ∈ (convert_smiles tk fs0 s f fmt true sz).log ∧
       "Using 2D coordinates..." ∈ (convert_smiles tk fs0 s f fmt true sz).log ∧
       Event.compute2D ∈ (convert_smiles tk fs0 s f fmt true sz).events)) := by
  have hnp : fmt ≠ "png" := by rcases hfmt with h | h <;> subst h <;> decide
  obtain ⟨hev, u, hlog⟩ := convert_out tk fs0 s f fmt true sz m hp
  have hB : convertBranch tk m f fmt true sz (parsedSt tk fs0 s fmt m)
      = nonPngBranch tk m f fmt true (parsedSt tk fs0 s fmt m) := by
    simp [convertBranch, hnp]
  rw [hB] at hev hlog
  obtain ⟨t, u2, hev2, hlog2⟩ := nonPng_out3d tk m f fmt (parsedSt tk fs0 s fmt m)
  rw [hev2] at hev
  rw [hlog2] at hlog
  refine ⟨?_, ?_, ?_, ?_, ?_, ?_, ?_⟩
  · obtain ⟨t3, hg⟩ := gen3D_events tk (tk.addHs m) _
    rw [hg] at hev
    rw [hev]
    simp
  · intro hE
    obtain ⟨t3, hg⟩ := gen3D_events_fallback tk (tk.addHs m) _ hE
    rw [hg] at hev
    rw [hev]
    simp
  · intro rv hE hrv
    obtain ⟨t3, hg⟩ := gen3D_events_direct tk (tk.addHs m) _ rv hE hrv
    rw [hg] at hev
    rw [hev]
    simp
  · intro rv mv hE hrv hM hmv
    have hEP : embedPhase tk (tk.addHs m)
        (logPr "Generating 3D coordinates..."
          (logPr ("Number of atoms after adding hydrogens: " ++
            toString (tk.getNumAtoms (tk.addHs m))) (parsedSt tk fs0 s fmt m)))
        = .ok (logPr "3D coordinates generated successfully"
            (logPr "Energy minimization may not have fully converged"
              (emitEv .mmffOptimize (emitEv .embedETKDG
                (logPr "Generating 3D coordinates..."
                  (logPr ("Number of atoms after adding hydrogens: " ++
                    toString (tk.getNumAtoms (tk.addHs m)))
                    (parsedSt tk fs0 s fmt m))))))) := by
      rw [embedPhase_direct tk (tk.addHs m) _ rv hE hrv,
        mmffStep_nonconv tk (tk.addHs m) _ mv hM hmv]
    rw [gen3D_of_ok tk (tk.addHs m) _ _ hEP] at hlog
    rw [hlog]
    constructor <;> simp
  · intro e hE
    have hEP : embedPhase tk (tk.addHs m)
        (logPr "Generating 3D coordinates..."
          (logPr ("Number of atoms after adding hydrogens: " ++
            toString (tk.getNumAtoms (tk.addHs m))) (parsedSt tk fs0 s fmt m)))
        = .error (e, emitEv .embedETKDG
            (logPr "Generating 3D coordinates..."
              (logPr ("Number of atoms after adding hydrogens: " ++
                toString (tk.getNumAtoms (tk.addHs m)))
                (parsedSt tk fs0 s fmt m)))) :=
      embedPhase_raise tk (tk.addHs m) _ e hE
    obtain ⟨hl, he⟩ := gen3D_handler tk (tk.addHs m) _ _ e hEP
    rw [hl] at hlog
    rw [he] at hev
    refine ⟨?_, ?_, ?_⟩
    · rw [hlog]; simp
    · rw [hlog]; simp
    · rw [hev]; simp
  · intro rv e hE hrv hM
    have hEP : embedPhase tk (tk.addHs m)
        (logPr "Generating 3D coordinates..."
          (logPr ("Number of atoms after adding hydrogens: " ++
            toString (tk.getNumAtoms (tk.addHs m))) (parsedSt tk fs0 s fmt m)))
        = .error (e, emitEv .mmffOptimize (emitEv .embedETKDG
            (logPr "Generating 3D coordinates..."
              (logPr ("Number of atoms after adding hydrogens: " ++
                toString (tk.getNumAtoms (tk.addHs m)))
                (parsedSt tk fs0 s fmt m))))) := by
      rw [embedPhase_direct tk (tk.addHs m) _ rv hE hrv,
        mmffStep_raise tk (tk.addHs m) _ e hM]
    obtain ⟨hl, he⟩ := gen3D_handler tk (tk.addHs m) _ _ e hEP
    rw [hl] at hlog
    rw [he] at hev
    refine ⟨?_, ?_, ?_⟩
    · rw [hlog]; simp
    · rw [hlog]; simp
    · rw [hev]; simp
  · intro e hE hD
    have hEP : embedPhase tk (tk.addHs m)
        (logPr "Generating 3D coordinates..."
          (logPr ("Number of atoms after adding hydrogens: " ++
            toString (tk.getNumAtoms (tk.addHs m))) (parsedSt tk fs0 s fmt m)))
        = .error (e, emitEv .embedDefault
            (logPr "First embedding failed, trying alternative method..."
              (emitEv .embedETKDG
                (logPr "Generating 3D coordinates..."
                  (logPr ("Number of atoms after adding hydrogens: " ++
                    toString (tk.getNumAtoms (tk.addHs m)))
                    (parsedSt tk fs0 s fmt m)))))) :=
      embedPhase_fallback_raise tk (tk.addHs m) _ e hE hD
    obtain ⟨hl, he⟩ := gen3D_handler tk (tk.addHs m) _ _ e hEP
    rw [hl] at hlog
    rw [he] at hev
    refine ⟨?_, ?_, ?_⟩
    · rw [hlog]; simp
    · rw [hlog]; simp
    · rw [hev]; simp

theorem threeD_generation_behavior_witness :
    tkNonConv.molFromSmiles "CCO" = some ⟨1⟩ ∧
    (convert_smiles tkNonConv fsEmpty "CCO" "out.pdb" "pdb" true 200).events.head?
        = some Event.embedETKDG ∧
    "Energy minimization may not have fully converged"
        ∈ (convert_smiles tkNonConv fsEmpty "CCO" "out.pdb" "pdb" true 200).log :=
  ⟨rfl,
   (threeD_generation_behavior tkNonConv fsEmpty "CCO" "out.pdb" "pdb" 200 ⟨1⟩
     rfl (Or.inl rfl)).1,
   ((threeD_generation_behavior tkNonConv fsEmpty "CCO" "out.pdb" "pdb" 200 ⟨1⟩
     rfl (Or.inl rfl)).2.2.2.1 0 1 rfl (by decide) rfl (by decide)).1⟩

theorem image_size_defaulting_witness :
    resolveImageSize "" = (200, []) ∧
    resolveImageSize "zz" = (200, [invalidSizeMsg]) ∧
    resolveImageSize "-7" = (200, [invalidSizeMsg]) ∧
    resolveImageSize "400" = (400, []) :=
  ⟨(image_size_defaulting "").1 (by decide),
   (image_size_defaulting "zz").2.1 (by decide) (by decide),
   (image_size_defaulting "-7").2.2.1 (-7) (by decide) (by decide),
   (image_size_defaulting "400").2.2.2 400 (by decide) (by decide)⟩

/-- C7: within one iteration, a `KeyboardInterrupt` raised at any prompt is
caught and cleanly ends the loop with the interrupted-goodbye message, while
any other exception raised at a prompt is caught, its message logged, and
the loop goes on to the next iteration.  The cases cover every `input()`
site of an iteration: the menu choice, the SMILES prompt, the PNG size
prompt, the filename prompt and the continue prompt. -/
theorem iteration_exception_handling (tk : Toolkit) (fs : FS) (log : List String)
    (rest : List InEvent) (msg : String) :
    ((loopIter tk ⟨.interrupt :: rest, log, fs⟩).2 = false ∧
      interruptedMsg ∈ (loopIter tk ⟨.interrupt :: rest, log, fs⟩).1.log) ∧
    ((loopIter tk ⟨.err msg :: rest, log, fs⟩).2 = true ∧
      errorOccurredMsg msg ∈ (loopIter tk ⟨.err msg :: rest, log, fs⟩).1.log) ∧
    ((loopIter tk ⟨.line "1" :: .interrupt :: rest, log, fs⟩).2 = false ∧
      interruptedMsg ∈ (loopIter tk ⟨.line "1" :: .interrupt :: rest, log, fs⟩).1.log) ∧
    ((loopIter tk ⟨.line "1" :: .err msg :: rest, log, fs⟩).2 = true ∧
      errorOccurredMsg msg
        ∈ (loopIter tk ⟨.line "1" :: .err msg :: rest, log, fs⟩).1.log) ∧
    ((loopIter tk ⟨.line "5" :: .line "CCO" :: .interrupt :: rest, log, fs⟩).2 = false ∧
      interruptedMsg ∈
        (loopIter tk ⟨.line "5" :: .line "CCO" :: .interrupt :: rest, log, fs⟩).1.log) ∧
    ((loopIter tk ⟨.line "1" :: .line "CCO" :: .interrupt :: rest, log, fs⟩).2 = false ∧
      interruptedMsg ∈
        (loopIter tk ⟨.line "1" :: .line "CCO" :: .interrupt :: rest, log, fs⟩).1.log) ∧
    ((loopIter tk
        ⟨.line "1" :: .line "CCO" :: .line "f" :: .interrupt :: rest, log, fs⟩).2
          = false ∧
      interruptedMsg ∈ (loopIter tk
        ⟨.line "1" :: .line "CCO" :: .line "f" :: .interrupt :: rest, log, fs⟩).1.log) ∧
    ((loopIter tk
        ⟨.line "1" :: .line "CCO" :: .line "f" :: .err msg :: rest, log, fs⟩).2
          = true ∧
      errorOccurredMsg msg ∈ (loopIter tk
        ⟨.line "1" :: .line "CCO" :: .line "f" :: .err msg :: rest, log, fs⟩).1.log) := by
  have p1 : pyStrip "1" = "1" := by decide
  have p5 : pyStrip "5" = "5" := by decide
  have pC : pyStrip "CCO" = "CCO" := by decide
  have c1 : (["1", "2", "3", "4", "5"].contains "1") = true := by decide
  have c5 : (["1", "2", "3", "4", "5"].contains "5") = true := by decide
  have c12 : (["1", "2"].contains "1") = true := by decide
  refine ⟨⟨?_, ?_⟩, ⟨?_, ?_⟩, ⟨?_, ?_⟩, ⟨?_, ?_⟩, ⟨?_, ?_⟩, ⟨?_, ?_⟩, ⟨?_, ?_⟩, ⟨?_, ?_⟩⟩ <;>
    simp [loopIter, iterBody, readLine, chooseSettings, p1, p5, pC, c1, c5, c12]

/-- C8: at the continue prompt after a conversion, the loop runs another
iteration exactly when the stripped, lowercased answer is `y` or `yes`;
every other answer ends the loop. -/
theorem continue_prompt_behavior (tk : Toolkit) (fs : FS) (log : List String)
    (rest : List InEvent) (ans : String) :
    (loopIter tk
      ⟨.line "1" :: .line "CCO" :: .line "f" :: .line ans :: rest, log, fs⟩).2
        = wantsContinue ans ∧
    (wantsContinue ans = true ↔
      (pyLower (pyStrip ans) = "y" ∨ pyLower (pyStrip ans) = "yes")) := by
  have p1 : pyStrip "1" = "1" := by decide
  have pC : pyStrip "CCO" = "CCO" := by decide
  have c1 : (["1", "2", "3", "4", "5"].contains "1") = true := by decide
  have c12 : (["1", "2"].contains "1") = true := by decide
  constructor
  · cases hw : wantsContinue ans <;>
      simp [loopIter, iterBody, readLine, chooseSettings, p1, pC, c1, c12, hw]
  · simp [wantsContinue]

end SmilesTo
